import Mathlib

/-!
Verification of the Session Manager component (`src/context/AuthContext.tsx`)
of the elevate-your-career-path repository.

The component is sequential orchestration around remote calls: every remote
interaction (identity service, `profiles` table) is modelled by passing the
remote outcome as an explicit parameter of the corresponding pure transition
function.  Local component state (`user`, `isLoading`) is threaded explicitly,
and observable side effects (toasts, console logs, navigation, issued
requests) are returned as data.
-/

/-- The local `User` view model of `AuthContext.tsx`:
`{ id, email, name, education?, points }`. -/
structure User where
  id : String
  email : String
  name : String
  education : Option String
  points : Int
deriving DecidableEq

/-- A row of the remote `profiles` table: `{ id, name, email, education, points }`,
with the nullable text columns as `Option String`. -/
structure ProfilesRow where
  id : String
  name : Option String
  email : Option String
  education : Option String
  points : Int
deriving DecidableEq

/-- JavaScript `s || ''` on a `string | null` value: `null` and the empty
string both fall through to `''`. -/
def jsOrEmpty (s : Option String) : String :=
  match s with
  | none => ""
  | some v => if v = "" then "" else v

/-- JavaScript `s || undefined` on a `string | null` value: `null` and the
empty string both fall through to `undefined`. -/
def jsOrUndefined (s : Option String) : Option String :=
  match s with
  | none => none
  | some v => if v = "" then none else v

/-- The `setUser({...})` record built from a profile row in
`fetchUserProfile`: `email: profile.email || ''`, `name: profile.name || ''`,
`education: profile.education || undefined`, `points: profile.points`. -/
def profileToUser (p : ProfilesRow) : User :=
  { id := p.id
    email := jsOrEmpty p.email
    name := jsOrEmpty p.name
    education := jsOrUndefined p.education
    points := p.points }

/-- A toast notification `{ title, description, variant }`; the code either
passes `variant: "destructive"` or omits the field (`none`). -/
structure Toast where
  title : String
  description : String
  variant : Option String
deriving DecidableEq

/-- Outcome of the `profiles` select in `fetchUserProfile`, as seen by the
code: an `error` result, a resolved response with `data` null, a resolved
response with a row, or a thrown exception. -/
inductive FetchOutcome where
  | fetchErr (msg : String)
  | noRow
  | row (p : ProfilesRow)
  | fetchExn (msg : String)
deriving DecidableEq

/-- Result of one `fetchUserProfile` call: the new `user` state plus the
console logs and toasts it emitted. -/
structure FetchEffects where
  user : Option User
  logs : List String
  toasts : List Toast
deriving DecidableEq

/-- `fetchUserProfile` (AuthContext.tsx lines 81-107): on an `error` result it
logs and returns; on resolved `data` present it overwrites `user`; on resolved
`data` null it falls through unchanged; a thrown exception is caught and
logged.  No toast is ever emitted. -/
def fetchUserProfile (user : Option User) (outcome : FetchOutcome) : FetchEffects :=
  match outcome with
  | .fetchErr msg =>
      { user := user, logs := ["Error fetching user profile: " ++ msg], toasts := [] }
  | .noRow =>
      { user := user, logs := [], toasts := [] }
  | .row p =>
      { user := some (profileToUser p), logs := [], toasts := [] }
  | .fetchExn msg =>
      { user := user, logs := ["Error fetching user profile: " ++ msg], toasts := [] }

/-- The auth change-notification event kinds the handler can receive. -/
inductive AuthEvent where
  | signedIn
  | tokenRefreshed
  | signedOut
  | userUpdated
  | passwordRecovery
deriving DecidableEq

/-- The `onAuthStateChange` callback (AuthContext.tsx lines 65-73):
`if (session && (event === 'SIGNED_IN' || event === 'TOKEN_REFRESHED'))` run
`fetchUserProfile`; `else if (event === 'SIGNED_OUT')` set `user` to null;
otherwise do nothing.  `sess` is the session argument (its subject id when
present); `fetch` is the environment's response if a profile fetch is issued.
Returns the new `user` and whether a remote profile request was issued. -/
def handleAuthChange (user : Option User) (ev : AuthEvent) (sess : Option String)
    (fetch : FetchOutcome) : Option User × Bool :=
  if sess.isSome = true ∧ (ev = AuthEvent.signedIn ∨ ev = AuthEvent.tokenRefreshed) then
    ((fetchUserProfile user fetch).user, true)
  else if ev = AuthEvent.signedOut then
    (none, false)
  else
    (user, false)

/-- One delivered event with its environment choices: the session payload and
the fetch response the `profiles` table would give. -/
def runAuthEvents (user : Option User)
    (evs : List (AuthEvent × Option String × FetchOutcome)) : Option User :=
  evs.foldl (fun u e => (handleAuthChange u e.1 e.2.1 e.2.2).1) user

/-- Component state visible to consumers: `user` and `isLoading`. -/
structure AuthState where
  user : Option User
  isLoading : Bool
deriving DecidableEq

/-- Outcome of the `profiles` update issued by `updateUserPoints`: resolved
with no error, resolved with an `error` result, or a thrown exception. -/
inductive UpdateOutcome where
  | ok
  | updErr (msg : String)
  | updExn (msg : String)
deriving DecidableEq

/-- Result of one `updateUserPoints` call: the new component state, the
request issued against the `profiles` table (`(row id, points written)`, or
`none` when no request was issued), and the console logs. -/
structure UpdatePointsResult where
  state : AuthState
  request : Option (String × Int)
  logs : List String
deriving DecidableEq

/-- `updateUserPoints` (AuthContext.tsx lines 234-258): early return when
`user` is null; otherwise compute `newPoints = user.points + points`, issue
the update keyed by `user.id`, and on an error result or a thrown exception
log and leave state unchanged, on success set
`user := { ...user, points: newPoints }`. -/
def updateUserPoints (s : AuthState) (points : Int) (outcome : UpdateOutcome) :
    UpdatePointsResult :=
  match s.user with
  | none => { state := s, request := none, logs := [] }
  | some u =>
      let newPoints := u.points + points
      match outcome with
      | .ok =>
          { state := { s with user := some { u with points := newPoints } }
            request := some (u.id, newPoints)
            logs := [] }
      | .updErr msg =>
          { state := s
            request := some (u.id, newPoints)
            logs := ["Error updating points: " ++ msg] }
      | .updExn msg =>
          { state := s
            request := some (u.id, newPoints)
            logs := ["Error updating points: " ++ msg] }

/-- Outcome of `supabase.auth.signOut()`: resolved with no error, resolved
with an `error` result (which the code never inspects), or a thrown
exception. -/
inductive SignOutOutcome where
  | ok
  | signOutErr (msg : String)
  | signOutExn (msg : String)
deriving DecidableEq

/-- Result of one `logout` call. -/
structure LogoutResult where
  user : Option User
  toasts : List Toast
  navigated : Option String
  logs : List String
deriving DecidableEq

/-- `logout` (AuthContext.tsx lines 213-231): `await supabase.auth.signOut()`
(its error result, if any, is ignored), then `setUser(null)`, a success toast
and navigation to "/"; a thrown exception skips all of that and the catch
block logs and emits a destructive toast, leaving `user` untouched. -/
def logout (user : Option User) (outcome : SignOutOutcome) : LogoutResult :=
  match outcome with
  | .signOutExn msg =>
      { user := user
        toasts := [{ title := "Logout failed"
                     description := "An error occurred during logout"
                     variant := some "destructive" }]
        navigated := none
        logs := ["Error during logout: " ++ msg] }
  | _ =>
      { user := none
        toasts := [{ title := "Logged out"
                     description := "You have been logged out successfully"
                     variant := none }]
        navigated := some "/"
        logs := [] }

/-- Outcome of `supabase.auth.signInWithPassword`: success, an `error` result,
or a thrown exception. -/
inductive LoginOutcome where
  | ok
  | loginErr (msg : String)
  | loginExn (msg : String)
deriving DecidableEq

/-- Result of one `login` call: final `isLoading`, toasts, the re-raised
failure if any, navigation target, and console logs. -/
structure LoginResult where
  isLoading : Bool
  toasts : List Toast
  thrown : Option String
  navigated : Option String
  logs : List String
deriving DecidableEq

/-- `login` (AuthContext.tsx lines 110-142): on an error result, emit the
destructive "Login failed" toast carrying `error.message` and `throw error`;
the catch block logs and re-throws; the finally block sets
`isLoading = false` on every path.  On success, emit the success toast and
navigate to the dashboard; `user` itself is not touched by `login`. -/
def login (outcome : LoginOutcome) : LoginResult :=
  match outcome with
  | .ok =>
      { isLoading := false
        toasts := [{ title := "Logged in successfully"
                     description := "Welcome back to ElevateCareer!"
                     variant := none }]
        thrown := none
        navigated := some "/dashboard"
        logs := [] }
  | .loginErr msg =>
      { isLoading := false
        toasts := [{ title := "Login failed"
                     description := msg
                     variant := some "destructive" }]
        thrown := some msg
        navigated := none
        logs := ["Login error: " ++ msg] }
  | .loginExn msg =>
      { isLoading := false
        toasts := []
        thrown := some msg
        navigated := none
        logs := ["Login error: " ++ msg] }

/-- A delivered change-notification: every event other than `SIGNED_OUT` is
delivered by the identity service together with the live session's subject
id; `SIGNED_OUT` is delivered with a null session. -/
inductive EventDelivery where
  | signedIn (sid : String)
  | tokenRefreshed (sid : String)
  | signedOut
  | userUpdated (sid : String)
  | passwordRecovery (sid : String)
deriving DecidableEq

/-- The event kind of a delivery. -/
def deliveryEvent : EventDelivery → AuthEvent
  | .signedIn _ => .signedIn
  | .tokenRefreshed _ => .tokenRefreshed
  | .signedOut => .signedOut
  | .userUpdated _ => .userUpdated
  | .passwordRecovery _ => .passwordRecovery

/-- The session payload of a delivery (its subject id when present). -/
def deliverySession : EventDelivery → Option String
  | .signedIn sid => some sid
  | .tokenRefreshed sid => some sid
  | .signedOut => none
  | .userUpdated sid => some sid
  | .passwordRecovery sid => some sid

/-- Session Manager state, extended with two environment-tracking fields
needed to state the spec's invariant: `session` is the subject id of the
currently valid backend session (if any), and `fetchedFor` is the subject id
of the last profile fetch that succeeded since `user` was last cleared. -/
structure SMState where
  user : Option User
  isLoading : Bool
  session : Option String
  fetchedFor : Option String
deriving DecidableEq

/-- Outcome of `supabase.auth.signUp`: success (carrying the created
`data.user.id`), an `error` result, or a thrown exception.  Per the backend
contract, `signUp` returns `{ user }`, not a session: a session resulting
from signup, if any, arrives through its own change-notification delivery. -/
inductive SignupOutcome where
  | ok (uid : String)
  | signupErr (msg : String)
  | signupExn (msg : String)
deriving DecidableEq

/-- One atomic Session Manager transition, bundling the environment's
responses: the mount-time session check, one delivered change-notification
event, one of the `login` / `signup` / `logout` / `updateUserPoints`
operations run to completion, or the deferred post-signup reconciliation
task (AuthContext.tsx lines 173-196) scheduled by a successful signup.  In
`signupDeferred uid fetch`, `fetch` is the outcome of the profile fetch the
task ends with, after its existence check and optional fallback insert have
acted on the remote store (covering arbitrary outcomes also admits a failed
insert or a failed re-fetch). -/
inductive SMAction where
  | initSession (fetch : FetchOutcome)
  | authEvent (d : EventDelivery) (fetch : FetchOutcome)
  | loginOp (sid : String) (outcome : LoginOutcome)
  | signupOp (outcome : SignupOutcome)
  | signupDeferred (uid : String) (fetch : FetchOutcome)
  | logoutOp (outcome : SignOutOutcome)
  | updatePoints (delta : Int) (outcome : UpdateOutcome)

/-- The Session Manager step function.  `user` transitions reuse the
per-operation definitions (`fetchUserProfile`, `handleAuthChange`, `logout`,
`updateUserPoints`); `session` and `fetchedFor` track the environment:
a successful login makes the session valid, `SIGNED_OUT` and a resolved
sign-out invalidate it, and `fetchedFor` records the subject of the last
successful profile fetch, cleared whenever `user` is cleared.  `signup`
itself only toggles `isLoading` (its `finally` block) and establishes no
session; its deferred reconciliation later mutates `user` through a plain
`fetchUserProfile` call for the new user id, gated on `data.user` only — not
on a session. -/
def smStep (s : SMState) (a : SMAction) : SMState :=
  match a with
  | .initSession fetch =>
      match s.session with
      | some sid =>
          { s with user := (fetchUserProfile s.user fetch).user
                   isLoading := false
                   fetchedFor :=
                     match fetch with
                     | .row _ => some sid
                     | _ => s.fetchedFor }
      | none => { s with isLoading := false }
  | .authEvent d fetch =>
      { s with user := (handleAuthChange s.user (deliveryEvent d) (deliverySession d) fetch).1
               session := deliverySession d
               fetchedFor :=
                 match d, fetch with
                 | .signedIn sid, .row _ => some sid
                 | .tokenRefreshed sid, .row _ => some sid
                 | .signedOut, _ => none
                 | _, _ => s.fetchedFor }
  | .loginOp sid outcome =>
      match outcome with
      | .ok => { s with session := some sid, isLoading := false }
      | _ => { s with isLoading := false }
  | .signupOp _ =>
      { s with isLoading := false }
  | .signupDeferred uid fetch =>
      { s with user := (fetchUserProfile s.user fetch).user
               fetchedFor :=
                 match fetch with
                 | .row _ => some uid
                 | _ => s.fetchedFor }
  | .logoutOp outcome =>
      { s with user := (logout s.user outcome).user
               session :=
                 match outcome with
                 | .ok => none
                 | _ => s.session
               fetchedFor :=
                 match outcome with
                 | .signOutExn _ => s.fetchedFor
                 | _ => none }
  | .updatePoints delta outcome =>
      { s with user := (updateUserPoints { user := s.user, isLoading := s.isLoading }
                          delta outcome).state.user }

/-- The state at mount: no user, `isLoading` true, no successful fetch yet;
the backend session may or may not already be valid. -/
def mkInit (sess : Option String) : SMState :=
  { user := none, isLoading := true, session := sess, fetchedFor := none }

/-- Run a list of Session Manager transitions. -/
def runActions (s : SMState) (acts : List SMAction) : SMState :=
  acts.foldl smStep s

/-- Reachability: states produced by some transition sequence from mount. -/
def Reachable (s : SMState) : Prop :=
  ∃ sess acts, s = runActions (mkInit sess) acts

/-- The spec's invariant, read strictly: `user` is non-empty iff a valid
session exists and the profile row matching that session's subject was the
one last fetched successfully. -/
def StrictInv (s : SMState) : Prop :=
  s.user.isSome = true ↔ (s.session.isSome = true ∧ s.session = s.fetchedFor)

/-- The invariant the code actually maintains: `user` is non-empty iff some
profile row has been fetched successfully since `user` was last cleared.
Neither half of the claim's right-hand side survives: the fetched row may
belong to an earlier session (a later session's failed fetch keeps the stale
user), and a valid session is not necessary at all (the post-signup deferred
reconciliation populates `user` with no session). -/
def AmendedInv (s : SMState) : Prop :=
  s.user.isSome = true ↔ s.fetchedFor.isSome = true

/-- Inductive form of the amended invariant: `user` and `fetchedFor` are set
and cleared together. -/
def InvFull (s : SMState) : Prop :=
  s.user.isSome = s.fetchedFor.isSome

/-- Deferred post-signup reconciliation (AuthContext.tsx lines 173-196),
against a modelled `profiles` store: query the row for the new user id; if
absent, insert `{ id, name, email, education, points: 0 }`; then run
`fetchUserProfile`.  Returns the new `user` and the new store contents. -/
def signupDeferredCheck (store : List ProfilesRow) (uid nm em ed : String)
    (user : Option User) : Option User × List ProfilesRow :=
  match store.find? (fun p => p.id == uid) with
  | some p => ((fetchUserProfile user (.row p)).user, store)
  | none =>
      let fallback : ProfilesRow :=
        { id := uid, name := some nm, email := some em, education := some ed, points := 0 }
      let store' := store ++ [fallback]
      ((fetchUserProfile user
          (match store'.find? (fun p => p.id == uid) with
           | some p => .row p
           | none => .noRow)).user,
       store')

/-- A concrete signed-in user used for witnesses and counterexamples. -/
def sampleUser : User :=
  { id := "u1", email := "a@b.com", name := "Alice", education := none, points := 5 }

/-- Claim C1: for every non-empty user state with points `p` and every delta
`d`, `updateUserPoints d` with a successful remote update sets `user.points`
to `p + d`, and with a failed remote update (error result or thrown
exception) leaves `user.points` equal to `p`. -/
theorem updateUserPoints_points_spec (s : AuthState) (u : User) (d : Int) (m : String)
    (h : s.user = some u) :
    (updateUserPoints s d .ok).state.user.map User.points = some (u.points + d) ∧
    (updateUserPoints s d (.updErr m)).state.user.map User.points = some u.points ∧
    (updateUserPoints s d (.updExn m)).state.user.map User.points = some u.points := by
  simp [updateUserPoints, h]

/-- Witness for C1 at a concrete state and delta. -/
theorem updateUserPoints_points_spec_witness :
    ({ user := some sampleUser, isLoading := false } : AuthState).user = some sampleUser ∧
    ((updateUserPoints { user := some sampleUser, isLoading := false } 3 .ok).state.user.map
        User.points = some (sampleUser.points + 3) ∧
      (updateUserPoints { user := some sampleUser, isLoading := false } 3
          (.updErr "network failure")).state.user.map User.points = some sampleUser.points ∧
      (updateUserPoints { user := some sampleUser, isLoading := false } 3
          (.updExn "network failure")).state.user.map User.points = some sampleUser.points) :=
  ⟨rfl, updateUserPoints_points_spec { user := some sampleUser, isLoading := false }
    sampleUser 3 "network failure" rfl⟩

/-- Claim C2 counterexample: when `supabase.auth.signOut()` throws, the catch
block runs before `setUser(null)` is ever reached, so the local user is NOT
cleared — refuting "user is empty regardless of whether the sign-out request
succeeded or failed" at a concrete input. -/
theorem logout_claim_counterexample :
    ¬ ((logout (some sampleUser) (.signOutExn "network failure")).user = none) := by
  simp [logout]

/-- Claim C2 amended: if the sign-out request resolves (with or without an
error result — the code ignores the result), the local user is cleared and a
success notification is emitted; if the sign-out request throws, a failure
notification is emitted and the local user is left unchanged. -/
theorem logout_amended (u : Option User) (m : String) :
    (logout u .ok).user = none ∧
    (logout u (.signOutErr m)).user = none ∧
    (logout u .ok).toasts =
      [{ title := "Logged out", description := "You have been logged out successfully",
         variant := none }] ∧
    (logout u (.signOutErr m)).toasts =
      [{ title := "Logged out", description := "You have been logged out successfully",
         variant := none }] ∧
    (logout u (.signOutExn m)).user = u ∧
    (logout u (.signOutExn m)).toasts =
      [{ title := "Logout failed", description := "An error occurred during logout",
         variant := some "destructive" }] := by
  simp [logout]

/-- Claim C4: delivering a `SIGNED_OUT` event clears `user` within the same
handler invocation and issues no remote call, whatever the prior user, the
session payload, and the ambient fetch response. -/
theorem signedOut_event_clears_user (u : Option User) (sess : Option String)
    (f : FetchOutcome) :
    handleAuthChange u .signedOut sess f = (none, false) := by
  simp [handleAuthChange]

/-- Claim C5: running the change-notification handler over any finite event
sequence ending in a `SIGNED_OUT` event, from any initial user state, ends
with `user` empty. -/
theorem events_ending_signedOut_clear_user (u : Option User)
    (pre : List (AuthEvent × Option String × FetchOutcome)) (sess : Option String)
    (f : FetchOutcome) :
    runAuthEvents u (pre ++ [(.signedOut, sess, f)]) = none := by
  simp [runAuthEvents, List.foldl_append, handleAuthChange]

/-- Claim C6: `fetchUserProfile` leaves `user` unchanged on a request failure
(error result or thrown exception) and on a resolved response with no row;
on a row it overwrites `user` with the row's fields, defaulting null
email/name to the empty string and null education to unset; failures are
logged, and no toast is ever emitted. -/
theorem fetchUserProfile_spec (u : Option User) (m : String) (p : ProfilesRow) :
    (fetchUserProfile u (.fetchErr m)).user = u ∧
    (fetchUserProfile u (.fetchExn m)).user = u ∧
    (fetchUserProfile u .noRow).user = u ∧
    (fetchUserProfile u (.row p)).user =
      some { id := p.id, email := jsOrEmpty p.email, name := jsOrEmpty p.name,
             education := jsOrUndefined p.education, points := p.points } ∧
    jsOrEmpty none = "" ∧
    jsOrUndefined none = none ∧
    (fetchUserProfile u (.fetchErr m)).logs = ["Error fetching user profile: " ++ m] ∧
    (fetchUserProfile u (.fetchErr m)).toasts = [] ∧
    (fetchUserProfile u (.fetchExn m)).toasts = [] := by
  simp [fetchUserProfile, profileToUser, jsOrEmpty, jsOrUndefined]

/-- Claim C7: when the identity service rejects the login with an error
result, a destructive toast carrying the service's message is emitted and
the failure is re-raised to the caller; and on every outcome `isLoading` is
false when `login` completes (the `finally` block). -/
theorem login_spec (m : String) (o : LoginOutcome) :
    (login (.loginErr m)).toasts =
      [{ title := "Login failed", description := m, variant := some "destructive" }] ∧
    (login (.loginErr m)).thrown = some m ∧
    (login o).isLoading = false := by
  refine ⟨by simp [login], by simp [login], ?_⟩
  cases o <;> simp [login]

/-- Claim C9: `updateUserPoints` with an empty user is a complete no-op:
state (`user` and `isLoading`) is unchanged, no remote request is issued,
and nothing is logged. -/
theorem updateUserPoints_noop_when_empty (s : AuthState) (d : Int) (o : UpdateOutcome)
    (h : s.user = none) :
    updateUserPoints s d o = { state := s, request := none, logs := [] } := by
  simp [updateUserPoints, h]

/-- Witness for C9 at a concrete state and delta. -/
theorem updateUserPoints_noop_when_empty_witness :
    ({ user := none, isLoading := true } : AuthState).user = none ∧
    updateUserPoints { user := none, isLoading := true } 7 .ok =
      { state := { user := none, isLoading := true }, request := none, logs := [] } :=
  ⟨rfl, updateUserPoints_noop_when_empty { user := none, isLoading := true } 7 .ok rfl⟩

/-- Claim C10: a successful `updateUserPoints` spreads the old user record,
so every field other than `points` — id, email, name, education — is
unchanged. -/
theorem updateUserPoints_frame (s : AuthState) (u : User) (d : Int)
    (h : s.user = some u) :
    ∃ u', (updateUserPoints s d .ok).state.user = some u' ∧
      u'.id = u.id ∧ u'.email = u.email ∧ u'.name = u.name ∧
      u'.education = u.education := by
  refine ⟨{ u with points := u.points + d }, ?_, rfl, rfl, rfl, rfl⟩
  simp [updateUserPoints, h]

/-- Witness for C10 at a concrete state and delta. -/
theorem updateUserPoints_frame_witness :
    ({ user := some sampleUser, isLoading := false } : AuthState).user = some sampleUser ∧
    (∃ u', (updateUserPoints { user := some sampleUser, isLoading := false } 3 .ok).state.user
        = some u' ∧
      u'.id = sampleUser.id ∧ u'.email = sampleUser.email ∧ u'.name = sampleUser.name ∧
      u'.education = sampleUser.education) :=
  ⟨rfl, updateUserPoints_frame { user := some sampleUser, isLoading := false } sampleUser 3 rfl⟩

theorem find?_append_singleton {α : Type} (l : List α) (p : α → Bool) (a : α)
    (h : l.find? p = none) (ha : p a = true) : (l ++ [a]).find? p = some a := by
  induction l with
  | nil => simp [List.find?, ha]
  | cons x xs ih =>
    rw [List.find?_eq_none] at h
    have hpx : ¬ p x = true := by
      have hx := h x (by simp)
      simpa using hx
    rw [List.cons_append, List.find?_cons_of_neg _ hpx]
    exact ih (List.find?_eq_none.mpr fun y hy => h y (by simp [hy]))

/-- Claim C8: after a successful signup, if the deferred check finds no
profile row for the new user id, a fallback row with `points = 0` and the
supplied name, email and education is inserted, then Profile Fetch runs, so
the resulting user has `points = 0`. -/
theorem signup_fallback_spec (store : List ProfilesRow) (uid nm em ed : String)
    (u : Option User)
    (h : store.find? (fun p => p.id == uid) = none) :
    (signupDeferredCheck store uid nm em ed u).2 =
      store ++ [{ id := uid, name := some nm, email := some em, education := some ed,
                  points := 0 }] ∧
    (signupDeferredCheck store uid nm em ed u).1.map User.points = some 0 := by
  have hfind : (store ++
      [({ id := uid, name := some nm, email := some em, education := some ed,
          points := 0 } : ProfilesRow)]).find? (fun p => p.id == uid) =
      some { id := uid, name := some nm, email := some em, education := some ed,
             points := 0 } :=
    find?_append_singleton store _ _ h (by simp)
  simp [signupDeferredCheck, h, hfind, fetchUserProfile, profileToUser]

/-- Witness for C8: empty store, concrete signup data. -/
theorem signup_fallback_spec_witness :
    ([] : List ProfilesRow).find? (fun p => p.id == "u1") = none ∧
    ((signupDeferredCheck [] "u1" "Alice" "a@b.com" "BSc" none).2 =
        [] ++ [{ id := "u1", name := some "Alice", email := some "a@b.com",
                 education := some "BSc", points := 0 }] ∧
      (signupDeferredCheck [] "u1" "Alice" "a@b.com" "BSc" none).1.map User.points = some 0) :=
  ⟨rfl, signup_fallback_spec [] "u1" "Alice" "a@b.com" "BSc" none rfl⟩

theorem invFull_mkInit (sess : Option String) : InvFull (mkInit sess) := by
  simp [InvFull, mkInit]

theorem updateUserPoints_preserves_isSome (s : AuthState) (d : Int) (o : UpdateOutcome) :
    (updateUserPoints s d o).state.user.isSome = s.user.isSome := by
  cases h : s.user <;> cases o <;> simp [updateUserPoints, h]

theorem invFull_step (s : SMState) (a : SMAction) (hs : InvFull s) : InvFull (smStep s a) := by
  simp only [InvFull] at hs
  cases a with
  | initSession fetch =>
    cases hsess : s.session with
    | none => simpa [smStep, hsess, InvFull] using hs
    | some sid =>
      cases fetch <;>
        simp_all [smStep, hsess, InvFull, fetchUserProfile]
  | authEvent d fetch =>
    cases d <;> cases fetch <;>
      simp_all [smStep, InvFull, handleAuthChange, fetchUserProfile,
        deliveryEvent, deliverySession]
  | loginOp sid outcome =>
    cases outcome <;> simp_all [smStep, InvFull]
  | signupOp outcome =>
    cases outcome <;> simp_all [smStep, InvFull]
  | signupDeferred uid fetch =>
    cases fetch <;> simp_all [smStep, InvFull, fetchUserProfile]
  | logoutOp outcome =>
    cases outcome <;> simp_all [smStep, InvFull, logout]
  | updatePoints delta outcome =>
    simpa [smStep, InvFull, updateUserPoints_preserves_isSome] using hs

theorem invFull_runActions (s : SMState) (acts : List SMAction) (hs : InvFull s) :
    InvFull (runActions s acts) := by
  induction acts generalizing s with
  | nil => exact hs
  | cons a as ih => exact ih (smStep s a) (invFull_step s a hs)

/-- Claim C3 amended: in every reachable Session Manager state, `user` is
non-empty iff some profile row has been fetched successfully since `user`
was last cleared.  Neither conjunct of the claim's right-hand side survives:
the fetched row may belong to an earlier session (a later session's failed
fetch keeps the stale user), and a valid session is not necessary at all
(the post-signup deferred reconciliation populates `user` gated only on the
created account, not on a session). -/
theorem sessionManager_amended_invariant (s : SMState) (h : Reachable s) : AmendedInv s := by
  obtain ⟨sess, acts, rfl⟩ := h
  have h1 := invFull_runActions (mkInit sess) acts (invFull_mkInit sess)
  simp only [InvFull] at h1
  exact ⟨fun hu => h1.symm.trans hu, fun hf => h1.trans hf⟩

/-- Witness for the amended C3 invariant at a concrete reachable state. -/
theorem sessionManager_amended_invariant_witness :
    Reachable (mkInit none) ∧ AmendedInv (mkInit none) :=
  ⟨⟨none, [], rfl⟩, sessionManager_amended_invariant (mkInit none) ⟨none, [], rfl⟩⟩

/-- The profile row of subject "A" used in the C3 counterexample trace. -/
def rowA : ProfilesRow :=
  { id := "A", name := some "Alice", email := some "alice@example.com",
    education := none, points := 1 }

/-- The C3 counterexample trace: subject "A" signs in and the profile fetch
succeeds; then a `SIGNED_IN` event for subject "B" arrives but B's profile
fetch fails, which `fetchUserProfile` handles by leaving `user` unchanged. -/
def cexTrace : List SMAction :=
  [ .authEvent (.signedIn "A") (.row rowA),
    .authEvent (.signedIn "B") (.fetchErr "network failure") ]

/-- The state reached by the C3 counterexample trace: the session is B's,
but `user` still holds subject A's stale profile data. -/
def cexState : SMState := runActions (mkInit none) cexTrace

/-- The profile row created for subject "C" by the backend trigger (or the
fallback insert) after "C" signs up. -/
def rowC : ProfilesRow :=
  { id := "C", name := some "Carol", email := some "carol@example.com",
    education := some "BSc", points := 0 }

/-- The second C3 counterexample trace: subject "C" signs up (`signUp`
returns the created user, no session) and the deferred reconciliation then
fetches C's profile row successfully — populating `user` with no valid
session ever established. -/
def cexTrace2 : List SMAction :=
  [ .signupOp (.ok "C"),
    .signupDeferred "C" (.row rowC) ]

/-- The state reached by the second C3 counterexample trace: `user` holds
subject C's profile while no valid session exists. -/
def cexState2 : SMState := runActions (mkInit none) cexTrace2

/-- Claim C3 counterexample, refuting both conjuncts of the claimed
if-and-only-if at concrete reachable states: in `cexState` the `user` is
non-empty but the valid session (subject "B") is not the one whose matching
profile row was last fetched successfully (subject "A"); in `cexState2` the
post-signup deferred reconciliation has populated `user` while no valid
session exists at all. -/
theorem sessionManager_invariant_counterexample :
    (Reachable cexState ∧
      cexState.user = some (profileToUser rowA) ∧
      cexState.session = some "B" ∧
      cexState.fetchedFor = some "A" ∧
      ¬ StrictInv cexState) ∧
    (Reachable cexState2 ∧
      cexState2.user = some (profileToUser rowC) ∧
      cexState2.session = none ∧
      ¬ StrictInv cexState2) :=
  ⟨⟨⟨none, cexTrace, rfl⟩, by decide, by decide, by decide, by
      simp only [StrictInv]
      decide⟩,
    ⟨⟨none, cexTrace2, rfl⟩, by decide, by decide, by
      simp only [StrictInv]
      decide⟩⟩
